import Mathlib

/-!
Shallow embedding of the core of the WUnderground Indigo plugin
(`plugin.py`): the nested-lookup resolver, the corrupted-data sanitizer,
the daily call-quota tracker, the per-device epoch gate of
`refreshWeatherData`, and the offline-trigger check.  Python values are
modelled by the inductive `PyVal`, Python exceptions by `PyError`, and
fallible Python code by `Except PyError`.
-/

set_option autoImplicit false

instance {ε α : Type} [DecidableEq ε] [DecidableEq α] : DecidableEq (Except ε α) := fun a b =>
  match a, b with
  | .ok x, .ok y =>
      if h : x = y then .isTrue (by rw [h]) else .isFalse (fun hc => h (Except.ok.inj hc))
  | .error x, .error y =>
      if h : x = y then .isTrue (by rw [h]) else .isFalse (fun hc => h (Except.error.inj hc))
  | .ok _, .error _ => .isFalse (fun hc => Except.noConfusion hc)
  | .error _, .ok _ => .isFalse (fun hc => Except.noConfusion hc)

namespace WUnderground

/-- A Python/JSON value as handled by the plugin: dict, list, string,
number (int or float, modelled as a rational), boolean, or None. -/
inductive PyVal where
  | obj (fields : List (String × PyVal))
  | list (items : List PyVal)
  | str (s : String)
  | num (q : ℚ)
  | bool (b : Bool)
  | noneV

/-- The Python exceptions the embedded code can raise. -/
inductive PyError where
  | valueError
  | typeError
  | keyError
  | indexError
deriving DecidableEq, Repr

/-- Numeric value of a list of decimal digit characters (most significant
first); the caller guarantees all characters are digits. -/
def natOfDigits (cs : List Char) : ℕ :=
  cs.foldl (fun n c => n * 10 + (c.toNat - 48)) 0

/-- Parse an unsigned decimal literal, `digits` or `digits.digits`
(either side of the dot may be empty, but not both). -/
def parseUnsigned (cs : List Char) : Option ℚ :=
  match cs.splitOn '.' with
  | [a] =>
      if a.length > 0 && a.all Char.isDigit then some (mkRat (natOfDigits a) 1) else none
  | [a, b] =>
      if (a.length + b.length > 0) && a.all Char.isDigit && b.all Char.isDigit then
        some (mkRat (natOfDigits a * 10 ^ b.length + natOfDigits b) (10 ^ b.length))
      else none
  | _ => none

/-- Strip leading and trailing spaces from a character list. -/
def stripSpaces (cs : List Char) : List Char :=
  ((cs.dropWhile (· = ' ')).reverse.dropWhile (· = ' ')).reverse

/-- The decimal fragment of Python `float(string)`: optional sign and a
plain decimal literal (the exponent, infinity and NaN forms, which the
plugin never receives, are not modelled). -/
def parseDecimal (s : String) : Option ℚ :=
  match stripSpaces s.toList with
  | '-' :: rest => (parseUnsigned rest).map Neg.neg
  | '+' :: rest => parseUnsigned rest
  | cs => parseUnsigned cs

/-- Python `int(string)`: optional sign and digits only (no dot). -/
def parseIntStr (s : String) : Option ℤ :=
  let digitsOnly : List Char → Option ℤ := fun cs =>
    if cs.length > 0 && cs.all Char.isDigit then some (natOfDigits cs) else none
  match stripSpaces s.toList with
  | '-' :: rest => (digitsOnly rest).map Neg.neg
  | '+' :: rest => digitsOnly rest
  | cs => digitsOnly cs

/-- Python `float(val)`: numbers and booleans convert, strings are
parsed (`ValueError` on failure), anything else raises `TypeError`. -/
def pyFloat : PyVal → Except PyError ℚ
  | .str s =>
      match parseDecimal s with
      | some q => .ok q
      | none => .error .valueError
  | .num q => .ok q
  | .bool b => .ok (if b then 1 else 0)
  | _ => .error .typeError

/-- Python `int(val)`: truncates a number toward zero, parses a string
as a decimal integer (`ValueError` on failure), converts a boolean;
anything else raises `TypeError`. -/
def pyIntOf : PyVal → Except PyError ℤ
  | .num q => .ok (Int.tdiv q.num (q.den : ℤ))
  | .str s =>
      match parseIntStr s with
      | some n => .ok n
      | none => .error .valueError
  | .bool b => .ok (if b then 1 else 0)
  | _ => .error .typeError

/-- A display string produced by the sanitizer: either the literal
sentinel string of two dashes, or the decimal rendering of a number
(Python `str(float)`). -/
inductive DisplayStr where
  | dashes
  | ofNum (q : ℚ)
deriving DecidableEq

/-- The implausibility threshold of `fixCorruptedData`: -55.728, the
Celsius equivalent of -99 degrees Fahrenheit (plugin.py line 491). -/
def corruptThreshold : ℚ := mkRat (-55728) 1000

/-- Model of `Plugin.fixCorruptedData` (plugin.py lines 479-501): parse
the value with `float`; a parse below the implausibility threshold
-55.728 or a `ValueError` yields the sentinel pair; only `ValueError`
is caught (the `TypeError` catch is commented out in the source), so
any other exception propagates. -/
def fixCorruptedData (val : PyVal) : Except PyError (ℚ × DisplayStr) :=
  match pyFloat val with
  | .ok v => if v < corruptThreshold then .ok (-99, .dashes) else .ok (v, .ofNum v)
  | .error .valueError => .ok (-99, .dashes)
  | .error e => .error e

/-- Whether `needle` occurs at the start of `hay`. -/
def leadsWith : List Char → List Char → Bool
  | [], _ => true
  | _ :: _, [] => false
  | a :: as, b :: bs => a == b && leadsWith as bs

/-- Whether `needle` occurs as a contiguous substring of `hay`
(Python `needle in hay` for strings). -/
def occursIn (needle : List Char) : List Char → Bool
  | [] => needle.isEmpty
  | c :: rest => leadsWith needle (c :: rest) || occursIn needle rest

/-- Python `key in sub` for a string `key` (plugin.py line 898): key
containment for a dict, element equality for a list, substring test for
a string; numbers, booleans and None are not containers and raise
`TypeError`. -/
def pyContains (key : String) : PyVal → Except PyError Bool
  | .obj fields => .ok (fields.any (fun kv => kv.1 == key))
  | .list items =>
      .ok (items.any (fun it => match it with | .str s => s == key | _ => false))
  | .str s => .ok (occursIn key.toList s.toList)
  | _ => .error .typeError

/-- Python `sub[key]` for a string `key`: dict lookup (`KeyError` when
the key is absent); lists and strings reject string indices and scalars
are not subscriptable, raising `TypeError`. -/
def pyIndexKey (sub : PyVal) (key : String) : Except PyError PyVal :=
  match sub with
  | .obj fields =>
      match fields.find? (fun kv => kv.1 == key) with
      | some kv => .ok kv.2
      | none => .error .keyError
  | _ => .error .typeError

/-- The generator step of `nestedLookup` (plugin.py line 898),
`next(sub[key] for sub in current if key in sub)`: scan the candidates
in order; `ok none` models `StopIteration`, and any exception raised by
the membership test or the indexing propagates. -/
def genNext (key : String) : List PyVal → Except PyError (Option PyVal)
  | [] => .ok Option.none
  | sub :: rest =>
      match pyContains key sub with
      | .error e => .error e
      | .ok true => (pyIndexKey sub key).map some
      | .ok false => genNext key rest

/-- The candidate list of one `nestedLookup` iteration (plugin.py line
895): a list focus contributes its elements, anything else is a
singleton. -/
def expandFocus : PyVal → List PyVal
  | .list items => items
  | v => [v]

/-- Model of `Plugin.nestedLookup` (plugin.py lines 882-903): walk the
key path, at each step scanning the candidate nodes for the first one
whose membership test succeeds; `StopIteration` returns the default,
any other exception propagates. -/
def nestedLookup (current : PyVal) (keys : List String) (dflt : PyVal) :
    Except PyError PyVal :=
  match keys with
  | [] => .ok current
  | key :: rest =>
    match genNext key (expandFocus current) with
    | .error e => .error e
    | .ok Option.none => .ok dflt
    | .ok (some v) => nestedLookup v rest dflt

/-- First candidate that is an object containing `key`, narrowed to that
key's value: the scan step of the resolver as the specification
describes it. -/
def findKeyInObjs (key : String) : List PyVal → Option PyVal
  | [] => Option.none
  | .obj fields :: rest =>
      match fields.find? (fun kv => kv.1 == key) with
      | some kv => some kv.2
      | Option.none => findKeyInObjs key rest
  | _ :: rest => findKeyInObjs key rest

/-- Modelled from the specification's words for PathResolver.resolve:
treat the focus as a candidate list starting from the root, expand list
candidates into their elements, narrow to the first object containing
the key, and return the default as soon as no candidate contains the
key.  Total: it never raises. -/
def resolveSpec (current : PyVal) (keys : List String) (dflt : PyVal) : PyVal :=
  match keys with
  | [] => current
  | key :: rest =>
    match findKeyInObjs key (expandFocus current) with
    | Option.none => dflt
    | some v => resolveSpec v rest dflt

/-- The first PathResolver example document of the specification. -/
def exampleDoc : PyVal :=
  .obj [("a", .list [.obj [("b", .num 1)], .obj [("c", .num 2)]])]

/-- The stored `dailyCallDay` preference: the empty string, or a valid
ISO date string abstracted as a proleptic day ordinal (as produced by
`datetime.date`). -/
inductive DayStr where
  | empty
  | date (d : ℕ)
deriving DecidableEq, Repr

/-- The day ordinal of the default date string "2000-01-01"
(`datetime.date(2000, 1, 1).toordinal()`). -/
def default2000 : ℕ := 730120

/-- Python `datetime.strptime(call_day, "%Y-%m-%d").date()`: fails with
`ValueError` on the empty string, otherwise yields the stored day. -/
def dayStrToDate : DayStr → Except PyError ℕ
  | .empty => .error .valueError
  | .date d => .ok d

/-- The quota bookkeeping persisted in the plugin preferences:
`dailyCallCounter`, `dailyCallLimitReached`, `dailyCallDay`. -/
structure QuotaPrefs where
  dailyCallCounter : ℕ
  dailyCallLimitReached : Bool
  dailyCallDay : DayStr
deriving DecidableEq, Repr

/-- Model of `Plugin.callCount` (plugin.py lines 195-224): when the
calls made so far reach the limit, set the limit flag and sleep (the
returned Bool, the QuotaExceeded signal); otherwise clear the flag and
increment the counter. -/
def callCount (callsMax : ℕ) (p : QuotaPrefs) : QuotaPrefs × Bool :=
  if p.dailyCallCounter ≥ callsMax then
    ({ p with dailyCallLimitReached := true }, true)
  else
    ({ p with dailyCallLimitReached := false,
              dailyCallCounter := p.dailyCallCounter + 1 }, false)

/-- Model of `Plugin.callDay` (plugin.py lines 226-259) with `today`
the current date in the fixed `US/Pacific-New` reference timezone.  The
stored day string is parsed with `strptime` before anything else, so an
empty string raises `ValueError` and the default-value check at line
250 never runs for it.  A stored default date is replaced by today;
then, when today is strictly later than the parsed stored date, the
counter and limit flag are reset and the day advanced.  The returned
Bool records whether the method sleeps because the limit flag was set
on entry (line 281). -/
def callDay (today : ℕ) (p : QuotaPrefs) : Except PyError (QuotaPrefs × Bool) :=
  match dayStrToDate p.dailyCallDay with
  | .error e => .error e
  | .ok conv =>
    let p1 := if p.dailyCallDay = DayStr.empty ∨ p.dailyCallDay = DayStr.date default2000
              then { p with dailyCallDay := DayStr.date today } else p
    let p2 := if conv < today then
                { p1 with dailyCallCounter := 0, dailyCallLimitReached := false,
                          dailyCallDay := DayStr.date today }
              else p1
    .ok (p2, p.dailyCallLimitReached)

/-- The state after `n` invocations of `callCount` with the default
limit of 500, starting from a fresh counter. -/
def iterCalls : ℕ → QuotaPrefs
  | 0 => ⟨0, false, DayStr.date 0⟩
  | n + 1 => (callCount 500 (iterCalls n)).1

/-- One operation on the quota preferences: a `callCount` with some
limit, or a `callDay` on some date. -/
inductive QuotaOp where
  | record (callsMax : ℕ)
  | day (today : ℕ)

/-- Apply one quota operation; `callCount` never raises, `callDay` can. -/
def applyQuotaOp : QuotaOp → QuotaPrefs → Except PyError QuotaPrefs
  | .record m, p => .ok (callCount m p).1
  | .day t, p => (callDay t p).map Prod.fst

/-- Whether an operation is a date rollover: a `callDay` whose `today`
in the reference timezone is strictly later than the stored day. -/
def isRollover : QuotaOp → QuotaPrefs → Bool
  | .day t, p =>
      match p.dailyCallDay with
      | .date d => decide (d < t)
      | .empty => false
  | .record _, _ => false

/-- Model of the JSON-decode step of `Plugin.getWeatherData` (plugin.py
lines 821-830): the parse result of the response body, or the empty
document when `simplejson.loads` raised. -/
def storeResponse (parsed : Option PyVal) : PyVal :=
  match parsed with
  | some v => v
  | Option.none => .obj []

/-- Python `sub[i]` for a non-negative integer index on a list:
`IndexError` out of range, `TypeError` when `sub` is not a list (the
plugin only ever indexes the observations list this way). -/
def pyIndexNat (sub : PyVal) (i : ℕ) : Except PyError PyVal :=
  match sub with
  | .list items =>
      match items.get? i with
      | some v => .ok v
      | Option.none => .error .indexError
  | _ => .error .typeError

/-- The published state of one weather device that the epoch gate of
`refreshWeatherData` reads and writes: the stored
`currentObservationEpoch` state (absent for a device the host has not
initialised), and the epoch of the observation whose data the device
currently displays. -/
structure DevState where
  currentObservationEpoch : Option PyVal
  publishedEpoch : Option ℤ

/-- Lines 1186-1190 of plugin.py: read the device's stored epoch state
(`KeyError` when the state is absent) and convert it with `int`,
mapping a `ValueError` to 0; any other exception propagates. -/
def deviceEpoch : Option PyVal → Except PyError ℤ
  | Option.none => .error .keyError
  | some v =>
      match pyIntOf v with
      | .ok n => .ok n
      | .error .valueError => .ok 0
      | .error e => .error e

/-- Lines 1193-1196 of plugin.py:
`int(masterWeatherDict[location]["observations"][0]["epoch"])` with
only a `ValueError` mapped to 0; a `KeyError` or any other exception
from the nested lookups propagates. -/
def weatherDataEpoch (wd : PyVal) : Except PyError ℤ :=
  match (do
      let a ← pyIndexKey wd "observations"
      let b ← pyIndexNat a 0
      let c ← pyIndexKey b "epoch"
      pyIntOf c : Except PyError ℤ) with
  | .ok n => .ok n
  | .error .valueError => .ok 0
  | .error e => .error e

/-- What the epoch gate decided for a device in one cycle. -/
inductive UpdateOutcome where
  | applied
  | skippedStale
  | skippedNoAge
  | raised (e : PyError)
deriving DecidableEq, Repr

/-- Model of the per-device epoch gate of `Plugin.refreshWeatherData`
(plugin.py lines 1184-1215) for a device whose location holds the raw
document `wd` (so the master dictionary is nonempty).  The stored
device epoch is read first; a `KeyError` there or in the weather-data
epoch lookup is caught at line 1204 and skips the update
(`good_time = False`); other exceptions propagate.  When
`device_epoch <= weather_data_epoch` the device is updated by
`parseWeatherData`, which publishes the observation but does not write
`currentObservationEpoch` (that update, line 1072, is commented out in
the source). -/
def refreshStep (s : DevState) (wd : PyVal) : DevState × UpdateOutcome :=
  match deviceEpoch s.currentObservationEpoch with
  | .error .keyError => (s, .skippedNoAge)
  | .error e => (s, .raised e)
  | .ok de =>
    match weatherDataEpoch wd with
    | .error .keyError => (s, .skippedNoAge)
    | .error e => (s, .raised e)
    | .ok we =>
      if de ≤ we then ({ s with publishedEpoch := some we }, .applied)
      else (s, .skippedStale)

/-- A provider document holding a single observation with the given
epoch, the shape consumed by the epoch gate. -/
def obsWith (e : ℤ) : PyVal :=
  .obj [("observations", .list [.obj [("epoch", .num (mkRat e 1))]])]

/-- A freshly configured device: its `currentObservationEpoch` state
exists with the empty-string default and it displays no observation. -/
def freshDev : DevState := ⟨some (.str ""), Option.none⟩

/-- The reason an offline trigger fires, as the specification's
OfflineEvent records it. -/
inductive OfflineReason where
  | timeout
  | sentinelFailure
  | activeAlert
deriving DecidableEq, Repr

/-- Model of the `weatherSiteOffline` branch of
`Plugin.triggerFireOfflineDevice` (plugin.py lines 1299-1318): with
`diff` the minutes elapsed since the observation and `offlineDelta` the
trigger's threshold in minutes, fire a timeout event when
`diff >= offline_delta`; otherwise (`elif`) fire a sentinel-failure
event when the device's temperature is at most -55. -/
def siteOfflineEvents (diff offlineDelta : ℚ) (temp : ℚ) : List OfflineReason :=
  if offlineDelta ≤ diff then [.timeout]
  else if temp ≤ -55 then [.sentinelFailure]
  else []

/-- Inputs on which `float` cannot raise `TypeError`: strings, numbers
and booleans. -/
def isParseSafe : PyVal → Prop
  | .str _ => True
  | .num _ => True
  | .bool _ => True
  | _ => False

theorem callCount_lt (m : ℕ) (p : QuotaPrefs) (h : p.dailyCallCounter < m) :
    callCount m p =
      ({ p with dailyCallLimitReached := false,
                dailyCallCounter := p.dailyCallCounter + 1 }, false) := by
  unfold callCount
  rw [if_neg (not_le.mpr h)]

theorem callCount_ge (m : ℕ) (p : QuotaPrefs) (h : m ≤ p.dailyCallCounter) :
    callCount m p = ({ p with dailyCallLimitReached := true }, true) := by
  unfold callCount
  rw [if_pos h]

theorem iterCalls_eq (n : ℕ) (h : n ≤ 500) :
    iterCalls n = ⟨n, false, DayStr.date 0⟩ := by
  induction n with
  | zero => rfl
  | succ k ih =>
    have hk : k < 500 := Nat.lt_of_succ_le h
    show (callCount 500 (iterCalls k)).1 = _
    rw [ih (Nat.le_of_lt hk), callCount_lt 500 ⟨k, false, DayStr.date 0⟩ hk]

/-- Claim C5: starting from a zero counter with a limit of 500, each of
the first 500 `callCount` invocations increments the counter by one,
leaves the limit flag false and does not signal; the 501st signals
QuotaExceeded (sleeps), sets the flag and leaves the counter at 500. -/
theorem callCount_quota_500 :
    (∀ n, n ≤ 500 → iterCalls n = ⟨n, false, DayStr.date 0⟩) ∧
    (∀ n, n < 500 → (callCount 500 (iterCalls n)).2 = false) ∧
    callCount 500 (iterCalls 500) = (⟨500, true, DayStr.date 0⟩, true) := by
  refine ⟨iterCalls_eq, ?_, ?_⟩
  · intro n h
    rw [iterCalls_eq n (Nat.le_of_lt h), callCount_lt 500 ⟨n, false, DayStr.date 0⟩ h]
  · rw [iterCalls_eq 500 le_rfl, callCount_ge 500 ⟨500, false, DayStr.date 0⟩ le_rfl]

/-- Claim C5 witness: the fourth call increments 3 to 4 without
signalling. -/
theorem callCount_quota_500_witness :
    iterCalls 4 = ⟨4, false, DayStr.date 0⟩ ∧
    (callCount 500 (iterCalls 3)).2 = false :=
  ⟨callCount_quota_500.1 4 (by decide), callCount_quota_500.2.1 3 (by decide)⟩

/-- Claim C10: any `callCount` invocation with the counter strictly
below the limit clears the limit flag (sets it to exactly false) in
addition to incrementing the counter. -/
theorem callCount_under_limit_clears_flag (callsMax : ℕ) (p : QuotaPrefs)
    (h : p.dailyCallCounter < callsMax) :
    (callCount callsMax p).1.dailyCallLimitReached = false ∧
    (callCount callsMax p).1.dailyCallCounter = p.dailyCallCounter + 1 := by
  rw [callCount_lt callsMax p h]
  exact ⟨rfl, rfl⟩

/-- Claim C10 witness: an under-limit call from a state with the flag
set clears the flag and increments the counter. -/
theorem callCount_under_limit_clears_flag_witness :
    (callCount 500 ⟨3, true, DayStr.date 0⟩).1.dailyCallLimitReached = false ∧
    (callCount 500 ⟨3, true, DayStr.date 0⟩).1.dailyCallCounter = 4 :=
  callCount_under_limit_clears_flag 500 ⟨3, true, DayStr.date 0⟩ (by decide)

/-- Claim C9 evaluation: with the reference date unset (the empty
string), `callDay` raises `ValueError` from `strptime` before the
default-value check can run, instead of resetting the counters; the
other two cases of the claim behave as described (a stale date resets
the counter, flag and day; an up-to-date date is a no-op on them). -/
theorem callDay_empty_raises :
    callDay 738000 ⟨7, true, DayStr.empty⟩ = .error .valueError ∧
    callDay 738000 ⟨7, true, DayStr.date 737999⟩ =
      .ok (⟨0, false, DayStr.date 738000⟩, true) ∧
    callDay 738000 ⟨7, false, DayStr.date 738000⟩ =
      .ok (⟨7, false, DayStr.date 738000⟩, false) :=
  ⟨rfl, by decide, by decide⟩

/-- Claim C1 evaluation: because the acceptance path never writes
`currentObservationEpoch` (plugin.py line 1072 is commented out), a
fresh device parses its stored epoch as 0 forever, so the epoch
sequence 100, 150, 90 is accepted, accepted, accepted — the third,
out-of-order observation is also published and the device ends on
epoch 90's data, not epoch 150's. -/
theorem epoch_gate_sequence_eval :
    refreshStep freshDev (obsWith 100) =
      (⟨some (.str ""), some 100⟩, .applied) ∧
    refreshStep ⟨some (.str ""), some 100⟩ (obsWith 150) =
      (⟨some (.str ""), some 150⟩, .applied) ∧
    refreshStep ⟨some (.str ""), some 150⟩ (obsWith 90) =
      (⟨some (.str ""), some 90⟩, .applied) :=
  ⟨rfl, rfl, rfl⟩

/-- Claim C7 counterexample: a device whose sanitized temperature is
the sentinel -99 but whose observation is 31 minutes old against a
30-minute threshold fires only the timeout event — the
sentinel-failure check sits in an `elif` and is not reached when the
elapsed time meets the threshold. -/
theorem sentinel_not_fired_when_elapsed :
    siteOfflineEvents 31 30 (-99) = [OfflineReason.timeout] ∧
    OfflineReason.sentinelFailure ∉ siteOfflineEvents 31 30 (-99) := by
  have h1 : siteOfflineEvents 31 30 (-99) = [OfflineReason.timeout] := by
    norm_num [siteOfflineEvents]
  refine ⟨h1, ?_⟩
  rw [h1]
  decide

/-- Claim C7 amended: for a device bound to an offline trigger whose
sanitized temperature is at most -55, the sentinel-failure event is
emitted exactly when the elapsed time is below the threshold; when the
elapsed time meets the threshold, only the timeout event fires. -/
theorem sentinel_requires_fresh_elapsed (diff delta temp : ℚ) (h : temp ≤ -55) :
    (diff < delta → siteOfflineEvents diff delta temp = [.sentinelFailure]) ∧
    (delta ≤ diff → siteOfflineEvents diff delta temp = [.timeout]) := by
  constructor
  · intro hlt
    unfold siteOfflineEvents
    rw [if_neg (not_le.mpr hlt), if_pos h]
  · intro hle
    unfold siteOfflineEvents
    rw [if_pos hle]

/-- Claim C7 witness: sentinel temperature with 29 of 30 minutes
elapsed fires the sentinel-failure event. -/
theorem sentinel_requires_fresh_elapsed_witness :
    siteOfflineEvents 29 30 (-99) = [OfflineReason.sentinelFailure] :=
  (sentinel_requires_fresh_elapsed 29 30 (-99) (by norm_num)).1 (by norm_num)

/-- Claim C8 counterexample: when the stored document is the empty
object, the downstream epoch lookup is a direct dict index that raises
`KeyError` — it does not resolve to a PathResolver default — and the
device's update is skipped for the cycle. -/
theorem malformed_body_not_default_eval :
    pyIndexKey (PyVal.obj []) "observations" = .error .keyError ∧
    refreshStep freshDev (PyVal.obj []) = (freshDev, .skippedNoAge) ∧
    UpdateOutcome.skippedNoAge ≠ .applied :=
  ⟨rfl, rfl, by decide⟩

/-- Claim C8 amended: a body that fails to parse is stored as the empty
document; on it, the epoch age check raises `KeyError`, which
`refreshWeatherData` catches, skipping that device's update for the
cycle — the cycle continues without raising, but no field resolves to
a PathResolver default. -/
theorem malformed_body_skips_update :
    storeResponse Option.none = PyVal.obj [] ∧
    (∀ (s : DevState) (de : ℤ), deviceEpoch s.currentObservationEpoch = .ok de →
        refreshStep s (.obj []) = (s, .skippedNoAge)) ∧
    (∀ s : DevState, deviceEpoch s.currentObservationEpoch = .error .keyError →
        refreshStep s (.obj []) = (s, .skippedNoAge)) := by
  refine ⟨rfl, ?_, ?_⟩
  · intro s de h
    unfold refreshStep
    rw [h]
    rfl
  · intro s h
    unfold refreshStep
    rw [h]

/-- Claim C8 witness: a fresh device (empty-string epoch state, parsed
as 0) is skipped on the empty document. -/
theorem malformed_body_skips_update_witness :
    refreshStep freshDev (PyVal.obj []) = (freshDev, .skippedNoAge) :=
  malformed_body_skips_update.2.1 freshDev 0 rfl

/-- Claim C6: across `callCount` and `callDay` operations, the counter
never decreases except on a date rollover (a `callDay` whose reference
timezone date is strictly later than the stored day), and a rollover
always resets the counter to 0 and the limit flag to false. -/
theorem quota_counter_invariant (op : QuotaOp) (p p' : QuotaPrefs)
    (h : applyQuotaOp op p = .ok p') :
    (isRollover op p = false → p.dailyCallCounter ≤ p'.dailyCallCounter) ∧
    (isRollover op p = true →
      p'.dailyCallCounter = 0 ∧ p'.dailyCallLimitReached = false) := by
  cases op with
  | record m =>
    have hp : (callCount m p).1 = p' := by
      simpa [applyQuotaOp] using h
    subst hp
    refine ⟨fun _ => ?_, fun hf => by simp [isRollover] at hf⟩
    unfold callCount
    split
    · exact le_rfl
    · exact Nat.le_succ _
  | day t =>
    cases hd : p.dailyCallDay with
    | empty =>
      rw [show applyQuotaOp (QuotaOp.day t) p = (callDay t p).map Prod.fst from rfl] at h
      unfold callDay at h
      rw [hd] at h
      simp [dayStrToDate, Except.map] at h
    | date d =>
      rw [show applyQuotaOp (QuotaOp.day t) p = (callDay t p).map Prod.fst from rfl] at h
      unfold callDay at h
      rw [hd] at h
      simp only [dayStrToDate, Except.map, Except.ok.injEq] at h
      by_cases hroll : d < t
      · rw [if_pos hroll] at h
        have hp' : p' = { dailyCallCounter := 0, dailyCallLimitReached := false,
                          dailyCallDay := DayStr.date t } := by
          rw [← h]
        constructor
        · intro hf
          rw [isRollover, hd] at hf
          simp [hroll] at hf
        · intro _
          rw [hp']
          exact ⟨rfl, rfl⟩
      · rw [if_neg hroll] at h
        constructor
        · intro _
          rw [← h]
          by_cases hdef : DayStr.date d = DayStr.empty ∨ DayStr.date d = DayStr.date default2000
          · rw [if_pos hdef]
          · rw [if_neg hdef]
        · intro hf
          rw [isRollover, hd] at hf
          simp [hroll] at hf

/-- Claim C6 witness: a rollover from day 2 to day 5 resets the counter
and the flag. -/
theorem quota_counter_invariant_witness :
    (QuotaPrefs.mk 0 false (DayStr.date 5)).dailyCallCounter = 0 ∧
    (QuotaPrefs.mk 0 false (DayStr.date 5)).dailyCallLimitReached = false :=
  (quota_counter_invariant (.day 5) ⟨3, true, DayStr.date 2⟩
    ⟨0, false, DayStr.date 5⟩ (by decide)).2 (by decide)

theorem pyFloat_no_typeError (val : PyVal) (h : isParseSafe val) (e : PyError)
    (hv : pyFloat val = .error e) : e = PyError.valueError := by
  cases val with
  | str s =>
    cases hs : parseDecimal s with
    | some q => simp [pyFloat, hs] at hv
    | none =>
      simp [pyFloat, hs] at hv
      exact hv.symm
  | num q => exact absurd hv (by simp [pyFloat])
  | bool b => exact absurd hv (by simp [pyFloat])
  | obj f => exact False.elim h
  | list l => exact False.elim h
  | noneV => exact False.elim h

theorem fixCorruptedData_of_ok (val : PyVal) (q : ℚ) (hv : pyFloat val = .ok q) :
    fixCorruptedData val =
      if q < corruptThreshold then .ok (-99, .dashes) else .ok (q, .ofNum q) := by
  unfold fixCorruptedData
  rw [hv]

theorem fixCorruptedData_of_valueError (val : PyVal)
    (hv : pyFloat val = .error .valueError) :
    fixCorruptedData val = .ok (-99, .dashes) := by
  unfold fixCorruptedData
  rw [hv]

/-- Claim C2 counterexample: the numeric parse of None fails, yet
`fixCorruptedData` does not return the sentinel pair for it (it raises
`TypeError` instead). -/
theorem repairNumeric_none_no_sentinel :
    fixCorruptedData PyVal.noneV ≠ .ok (-99, DisplayStr.dashes) := by
  intro hc
  rw [show fixCorruptedData PyVal.noneV = .error .typeError from rfl] at hc
  exact Except.noConfusion hc

/-- Claim C2 amended: for every string, numeric or boolean input, the
sanitizer returns the sentinel pair exactly when the parse raises
`ValueError` or the parsed value is below the threshold -55.728, and
otherwise returns the parsed value with its decimal rendering; inputs
that are none of these raise `TypeError` (see the counterexample). -/
theorem repairNumeric_spec (val : PyVal) (h : isParseSafe val) :
    (fixCorruptedData val = .ok (-99, .dashes) ↔
      pyFloat val = .error .valueError ∨
        ∃ q, pyFloat val = .ok q ∧ q < corruptThreshold) ∧
    (∀ q, pyFloat val = .ok q → ¬q < corruptThreshold →
      fixCorruptedData val = .ok (q, .ofNum q)) ∧
    corruptThreshold = -55.728 := by
  refine ⟨?_, ?_, by norm_num [corruptThreshold, Rat.mkRat_eq_div]⟩
  · cases hv : pyFloat val with
    | error e =>
      have he := pyFloat_no_typeError val h e hv
      subst he
      exact iff_of_true (fixCorruptedData_of_valueError val hv) (Or.inl rfl)
    | ok q =>
      by_cases hq : q < corruptThreshold
      · have hfix : fixCorruptedData val = .ok (-99, .dashes) := by
          rw [fixCorruptedData_of_ok val q hv, if_pos hq]
        exact iff_of_true hfix (Or.inr ⟨q, rfl, hq⟩)
      · have hfix : fixCorruptedData val = .ok (q, .ofNum q) := by
          rw [fixCorruptedData_of_ok val q hv, if_neg hq]
        constructor
        · intro hc
          rw [hfix] at hc
          have := (Prod.mk.injEq _ _ _ _).mp (Except.ok.inj hc)
          exact DisplayStr.noConfusion this.2
        · rintro (hc | ⟨q', hq', hlt⟩)
          · exact Except.noConfusion hc
          · exact absurd ((Except.ok.inj hq') ▸ hlt) hq
  · intro q hv hq
    rw [fixCorruptedData_of_ok val q hv, if_neg hq]

/-- Claim C2 witness: the string "-45.2" parses above the threshold and
passes through with its decimal rendering. -/
theorem repairNumeric_spec_witness :
    fixCorruptedData (.str "-45.2") =
      .ok (mkRat (-452) 10, .ofNum (mkRat (-452) 10)) :=
  (repairNumeric_spec (.str "-45.2") trivial).2.1 (mkRat (-452) 10)
    (by decide) (by decide)

/-- Claim C3 counterexample: on the input None, `fixCorruptedData`
raises `TypeError` (only `ValueError` is caught), so it does not return
a pair for every input. -/
theorem repairNumeric_none_raises :
    fixCorruptedData PyVal.noneV = .error PyError.typeError := rfl

/-- Claim C3 amended: for every string, numeric or boolean input, the
sanitizer returns a pair of a numeric value and a display string
without raising; for inputs that are none of these (such as None) the
uncaught `TypeError` propagates. -/
theorem repairNumeric_total (val : PyVal) (h : isParseSafe val) :
    ∃ p : ℚ × DisplayStr, fixCorruptedData val = .ok p := by
  cases hv : pyFloat val with
  | ok q =>
    by_cases hq : q < corruptThreshold
    · exact ⟨(-99, .dashes), by rw [fixCorruptedData_of_ok val q hv, if_pos hq]⟩
    · exact ⟨(q, .ofNum q), by rw [fixCorruptedData_of_ok val q hv, if_neg hq]⟩
  | error e =>
    have he := pyFloat_no_typeError val h e hv
    subst he
    exact ⟨(-99, .dashes), fixCorruptedData_of_valueError val hv⟩

/-- Claim C3 witness: the missing-value marker of two dashes yields a
pair without raising. -/
theorem repairNumeric_total_witness :
    ∃ p : ℚ × DisplayStr, fixCorruptedData (.str "--") = .ok p :=
  repairNumeric_total (.str "--") trivial

theorem genNext_ok (key : String) (cands : List PyVal) (r : Option PyVal)
    (h : genNext key cands = .ok r) : findKeyInObjs key cands = r := by
  induction cands with
  | nil =>
    simp only [genNext, Except.ok.injEq] at h
    simpa [findKeyInObjs] using h
  | cons sub rest ih =>
    cases sub with
    | obj fields =>
      cases hb : fields.any (fun kv => kv.1 == key) with
      | false =>
        simp only [genNext, pyContains, hb] at h
        have hf : fields.find? (fun kv => kv.1 == key) = Option.none :=
          List.find?_eq_none.mpr (List.any_eq_false.mp hb)
        simp only [findKeyInObjs, hf]
        exact ih h
      | true =>
        simp only [genNext, pyContains, hb] at h
        obtain ⟨kv, hkv⟩ := Option.isSome_iff_exists.mp
          (List.find?_isSome.mpr (List.any_eq_true.mp hb))
        rw [show pyIndexKey (PyVal.obj fields) key = .ok kv.2 by
              simp [pyIndexKey, hkv]] at h
        simp only [Except.map] at h
        simp only [findKeyInObjs, hkv]
        exact Except.ok.inj h
    | list items =>
      cases hb : items.any (fun it => match it with | .str s => s == key | _ => false) with
      | false =>
        simp only [genNext, pyContains, hb] at h
        simp only [findKeyInObjs]
        exact ih h
      | true =>
        simp only [genNext, pyContains, hb] at h
        simp [pyIndexKey, Except.map] at h
    | str s =>
      cases hb : occursIn key.toList s.toList with
      | false =>
        simp only [genNext, pyContains, hb] at h
        simp only [findKeyInObjs]
        exact ih h
      | true =>
        simp only [genNext, pyContains, hb] at h
        simp [pyIndexKey, Except.map] at h
    | num q =>
      simp [genNext, pyContains] at h
    | bool b =>
      simp [genNext, pyContains] at h
    | noneV =>
      simp [genNext, pyContains] at h

theorem nestedLookup_ok (keys : List String) :
    ∀ cur dflt v : PyVal,
      nestedLookup cur keys dflt = .ok v → v = resolveSpec cur keys dflt := by
  induction keys with
  | nil =>
    intro cur dflt v h
    simp only [nestedLookup, Except.ok.injEq] at h
    simpa [resolveSpec] using h.symm
  | cons key rest ih =>
    intro cur dflt v h
    unfold nestedLookup at h
    cases hg : genNext key (expandFocus cur) with
    | error e =>
      rw [hg] at h
      exact absurd h (by simp)
    | ok o =>
      rw [hg] at h
      have hf := genNext_ok key (expandFocus cur) o hg
      cases o with
      | none =>
        simp only [Except.ok.injEq] at h
        unfold resolveSpec
        rw [hf]
        exact h.symm
      | some u =>
        unfold resolveSpec
        rw [hf]
        exact ih u dflt v h

/-- Claim C4 amended: whenever `nestedLookup` completes without
raising, its result is exactly what the specification's resolver
algorithm computes (first object candidate containing the key, default
on exhaustion), and both examples of the specification hold; on a
scalar candidate, however, the Python membership test raises
`TypeError` instead of returning the default (see the
counterexample). -/
theorem nestedLookup_refines_resolveSpec :
    (∀ (keys : List String) (cur dflt v : PyVal),
        nestedLookup cur keys dflt = .ok v → v = resolveSpec cur keys dflt) ∧
    nestedLookup exampleDoc ["a", "b"] (.str "D") = .ok (.num 1) ∧
    nestedLookup (.obj []) ["x"] (.str "D") = .ok (.str "D") :=
  ⟨nestedLookup_ok, rfl, rfl⟩

/-- Claim C4 witness: the refinement applied to the first example
document. -/
theorem nestedLookup_refines_resolveSpec_witness :
    PyVal.num 1 = resolveSpec exampleDoc ["a", "b"] (.str "D") :=
  nestedLookup_refines_resolveSpec.1 ["a", "b"] exampleDoc (.str "D") (.num 1) rfl

/-- Claim C4 counterexample: on a scalar root the membership test of
the generator raises `TypeError`, so `nestedLookup` raises instead of
returning the default. -/
theorem nestedLookup_scalar_raises :
    nestedLookup (.num 5) ["x"] (.str "D") = .error .typeError ∧
    nestedLookup (.num 5) ["x"] (.str "D") ≠ .ok (.str "D") := by
  refine ⟨rfl, ?_⟩
  intro hc
  rw [show nestedLookup (.num 5) ["x"] (.str "D") = .error .typeError from rfl] at hc
  exact Except.noConfusion hc

end WUnderground
